import Mathlib

/-!
Verification of the MTG Commander bracket analyzer core
(deck_analyzer.py, theme_detector.py, synergy.py, config.py).

The Python code is shallowly embedded: card dictionaries become a `Card`
record whose fields default exactly like `dict.get` defaults in the source,
Python `str` operations are modelled over the character list of the string
(ASCII case mapping, as in the data the analyzer handles), Python ints
become `Int`/`Nat`, and Python floats become `ℚ` (every float the analyzer
computes is a dyadic/decimal quantity produced by `+ * / min max round`,
which `ℚ` models exactly).

Display-only strings (the `reasons` lists and `restriction_description`)
are not modelled: in the source they are append-only human-readable text
that never feeds back into any score or bracket value.
-/

namespace MTG

/-! ### Python string primitives over character lists -/

/-- `isPrefixChars pat l`: `pat` is a prefix of `l`. -/
def isPrefixChars : List Char → List Char → Bool
  | [], _ => true
  | _ :: _, [] => false
  | a :: as, b :: bs => a == b && isPrefixChars as bs

/-- `infixChars pat l`: `pat` occurs contiguously in `l`
(Python's `pat in l` on strings; the empty pattern always matches). -/
def infixChars (pat : List Char) : List Char → Bool
  | [] => pat.isEmpty
  | c :: rest => isPrefixChars pat (c :: rest) || infixChars pat rest

/-- Python `pat in hay` for strings. -/
def strContains (hay pat : String) : Bool := infixChars pat.toList hay.toList

/-- Python `str.lower()` (ASCII case mapping, as in the analyzed card data). -/
def pyLower (s : String) : String := ⟨s.toList.map Char.toLower⟩

/-- Python `str.upper()` on a single character. -/
def pyUpperChar (c : Char) : Char := c.toUpper

/-- Python `str.strip()`: drop leading and trailing whitespace. -/
def pyStrip (s : String) : String :=
  ⟨((s.toList.dropWhile Char.isWhitespace).reverse.dropWhile Char.isWhitespace).reverse⟩

/-- Python `str.endswith(suffix)`. -/
def pyEndsWith (s suffix : String) : Bool :=
  isPrefixChars suffix.toList.reverse s.toList.reverse

/-- Python `s[:-n]` for `n ≤ len s`. -/
def pyDropRight (s : String) (n : Nat) : String :=
  ⟨s.toList.take (s.toList.length - n)⟩

/-- Python `str.split()` with no argument: split on whitespace runs,
dropping empty pieces. -/
def pySplitWhitespaceAux : List Char → List Char → List String
  | [], acc => if acc.isEmpty then [] else [⟨acc.reverse⟩]
  | c :: rest, acc =>
      if c.isWhitespace then
        if acc.isEmpty then pySplitWhitespaceAux rest []
        else (⟨acc.reverse⟩ : String) :: pySplitWhitespaceAux rest []
      else pySplitWhitespaceAux rest (c :: acc)

def pySplitWhitespace (s : String) : List String := pySplitWhitespaceAux s.toList []

/-- Python `s.split(sep)` for a non-empty separator (Python raises on an
empty one, so the `max sep.length 1` step count only affects a case the
source never reaches). -/
def pySplitOnAux (sep : List Char) : List Char → List Char → List String
  | [], acc => [⟨acc.reverse⟩]
  | c :: rest, acc =>
      if isPrefixChars sep (c :: rest) then
        (⟨acc.reverse⟩ : String) ::
          pySplitOnAux sep ((c :: rest).drop (max sep.length 1)) []
      else pySplitOnAux sep rest (c :: acc)
  termination_by l _ => l.length
  decreasing_by
  · simp only [List.length_drop, List.length_cons]
    omega
  · simp

def pySplitOn (s sep : String) : List String := pySplitOnAux sep.toList s.toList []

/-- Maximal runs of lowercase ASCII letters, Python `re.findall(r'[a-z]{3,}', s)`
before the length-3 filter. -/
def lowercaseRunsAux : List Char → List Char → List String
  | [], acc => if acc.isEmpty then [] else [⟨acc.reverse⟩]
  | c :: rest, acc =>
      if 'a' ≤ c && c ≤ 'z' then lowercaseRunsAux rest (c :: acc)
      else if acc.isEmpty then lowercaseRunsAux rest []
      else (⟨acc.reverse⟩ : String) :: lowercaseRunsAux rest []

def lowercaseRuns (s : String) : List String := lowercaseRunsAux s.toList []

/-! ### Counter helpers

Python's `collections.Counter` iterates keys in first-insertion order, and
`most_common(1)[0]` returns the first-inserted key among those of maximal
count (``sorted`` is stable and counts only decrease down the list). -/

/-- The distinct elements of `l` in order of first occurrence
(the key order of a `Counter` built by iterating `l`). -/
def dedupFirst {α : Type} [DecidableEq α] (l : List α) : List α :=
  l.foldl (fun acc a => if a ∈ acc then acc else acc ++ [a]) []

/-- `Counter(l).most_common(1)[0]`: the first-inserted element of maximal
multiplicity, with its multiplicity; `none` on the empty list. -/
def mostCommon {α : Type} [DecidableEq α] (l : List α) : Option (α × Nat) :=
  (dedupFirst l).foldl
    (fun best a =>
      match best with
      | none => some (a, l.count a)
      | some (b, c) => if l.count a > c then some (a, l.count a) else some (b, c))
    none

/-! ### The card record

A Scryfall card dictionary. Each field's default value is the `dict.get`
default used at the corresponding access site in the source; `quantity`
models the optional `_quantity` key (`card.get("_quantity", 1)`). -/

structure Card where
  name : String := ""
  type_line : String := ""
  oracle_text : String := ""
  cmc : ℚ := 0
  quantity : Option Nat := none
  artist : String := ""
  set : String := ""
  rarity : String := ""
  frame : String := ""
  deriving Repr, DecidableEq

/-! ### `count_cards_with_quantity` (deck_analyzer.py)

`return sum(card.get("_quantity", 1) for card in cards)` -/

def count_cards_with_quantity (cards : List Card) : Nat :=
  cards.foldl (fun acc card => acc + (card.quantity.getD 1)) 0

/-! ### `_categorize_cards` (deck_analyzer.py)

Per-card bucket choice: the `if/elif` chain over
`type_line = card.get("type_line", "").lower()`.  The surrounding loop
appends each card to the single bucket chosen here. -/

def categorize_card (card : Card) : String :=
  let type_line := pyLower card.type_line
  if strContains type_line "creature" then "creatures"
  else if strContains type_line "instant" then "instants"
  else if strContains type_line "sorcery" then "sorceries"
  else if strContains type_line "artifact" then "artifacts"
  else if strContains type_line "enchantment" then "enchantments"
  else if strContains type_line "land" then "lands"
  else if strContains type_line "planeswalker" then "planeswalkers"
  else "other"

/-- The ordered priority list of §the categorizer contract: type-line
substring on the left, bucket name on the right. -/
def categoryPriority : List (String × String) :=
  [("creature", "creatures"), ("instant", "instants"), ("sorcery", "sorceries"),
   ("artifact", "artifacts"), ("enchantment", "enchantments"), ("land", "lands"),
   ("planeswalker", "planeswalkers")]

/-- First-match-wins categorization as the contract words it: scan the
ordered priority list, take the first type whose name occurs in the
lowercased type line, else `"other"`. -/
def categorize_card_by_priority (card : Card) : String :=
  ((categoryPriority.find? fun p => strContains (pyLower card.type_line) p.1).map
    Prod.snd).getD "other"

/-! ### Tutor tier configuration (config.py) -/

def TUTORS_PREMIUM : List String :=
  ["Demonic Tutor", "Vampiric Tutor", "Imperial Seal", "Mystical Tutor",
   "Enlightened Tutor", "Worldly Tutor", "Personal Tutor", "Gamble",
   "Summoner's Pact", "Merchant Scroll", "Muddle the Mixture", "Shred Memory",
   "Dimir Machinations", "Dizzy Spell"]

def TUTORS_EFFICIENT : List String :=
  ["Eladamri's Call", "Finale of Devastation", "Green Sun's Zenith",
   "Chord of Calling", "Eldritch Evolution", "Neoform", "Natural Order",
   "Birthing Pod", "Survival of the Fittest", "Fauna Shaman", "Crop Rotation",
   "Sylvan Tutor", "Wish", "Wishclaw Talisman", "Scheming Symmetry",
   "Diabolic Intent", "Grim Tutor", "Recruiter of the Guard",
   "Imperial Recruiter", "Ranger-Captain of Eos", "Ranger of Eos",
   "Spellseeker", "Tribute Mage", "Trophy Mage", "Trinket Mage", "Urza's Saga",
   "Inventors' Fair", "Tolaria West", "Fabricate", "Whir of Invention",
   "Tezzeret the Seeker", "Steelshaper's Gift", "Open the Armory",
   "Idyllic Tutor", "Sterling Grove", "Academy Rector", "Arena Rector"]

def TUTORS_STANDARD : List String :=
  ["Diabolic Tutor", "Mastermind's Acquisition", "Praetor's Grasp",
   "Dark Petition", "Sidisi, Undead Vizier", "Rune-Scarred Demon",
   "Razaketh, the Foulblooded", "Solve the Equation", "Long-Term Plans",
   "Supply // Demand", "Drift of Phantasms", "Dimir Infiltrator",
   "Clutch of the Undercity", "Plea for Guidance", "Beseech the Queen",
   "Final Parting", "Jarad's Orders", "Entomb", "Buried Alive",
   "Unmarked Grave"]

def TUTORS_SLOW : List String :=
  ["Diabolic Revelation", "Increasing Ambition", "Behold the Beyond",
   "Liliana Vess", "Tamiyo's Journal", "Planar Portal", "Planar Bridge",
   "Ring of Three Wishes", "Citanul Flute"]

/-! ### `BRACKET_SCORING` (config.py): the scoring policy constants -/

def tutor_premium_weight : ℚ := 3
def tutor_efficient_weight : ℚ := 2
def tutor_standard_weight : ℚ := 1
def tutor_slow_weight : ℚ := 1/2

def tutor_bracket3_threshold : ℚ := 6
def tutor_bracket4_threshold : ℚ := 12
def fast_mana_bracket4_threshold : Nat := 4
def fast_mana_cedh_threshold : Nat := 6
def free_interaction_cedh_threshold : Nat := 3
def staples_bracket3_threshold : Nat := 5
def staples_bracket4_threshold : Nat := 10
def cedh_signal_threshold : Int := 12
def avg_cmc_cedh : ℚ := 2
def avg_cmc_optimized : ℚ := 5/2
def lands_cedh_max : Nat := 31

/-! ### `_classify_tutors` (deck_analyzer.py): per-tutor tier choice

The loop body after the `is_tutor` test.  The curated sets are built by
lowercasing the configured lists (`{name.lower() for name in …}`), and
membership is on the lowercased card name, so the lookup is exact and
case-insensitive.  A tutor in no curated list falls through to the
mana-value branch (its `cmc` as fetched, defaulting to 4 in the source
when absent — here the caller's value). -/

def inCuratedList (tier : List String) (name : String) : Bool :=
  (tier.map pyLower).contains (pyLower name)

def classify_tutor_tier (name : String) (cmc : ℚ) : String :=
  if inCuratedList TUTORS_PREMIUM name then "premium"
  else if inCuratedList TUTORS_EFFICIENT name then "efficient"
  else if inCuratedList TUTORS_STANDARD name then "standard"
  else if inCuratedList TUTORS_SLOW name then "slow"
  else if cmc ≤ 1 then "premium"
  else if cmc ≤ 2 then "efficient"
  else if cmc ≤ 3 then "standard"
  else "slow"

/-! ### `_calculate_tutor_score` (deck_analyzer.py) -/

structure TutorBreakdown where
  premium : List String := []
  efficient : List String := []
  standard : List String := []
  slow : List String := []

def calculate_tutor_score (tb : TutorBreakdown) : ℚ :=
  0 + tb.premium.length * tutor_premium_weight
    + tb.efficient.length * tutor_efficient_weight
    + tb.standard.length * tutor_standard_weight
    + tb.slow.length * tutor_slow_weight

/-! ### `_calculate_cedh_signals` (deck_analyzer.py)

Each paragraph of the source does `signals += bonus` and records the same
`bonus` under one breakdown key; the two appearances of `"fast_mana"`
(and of `"stax_density"`) live in mutually exclusive `if/elif` branches.
Each paragraph is embedded as one block returning its own
(score contribution, breakdown entries); `calculate_cedh_signals` adds the
contributions and concatenates the entries in source order. -/

structure CedhInputs where
  cedh_commander_tier : Nat := 0
  fast_mana_count : Nat := 0
  free_interaction_count : Nat := 0
  stax_count : Nat := 0
  avg_cmc : ℚ := 0
  land_count : Nat := 0
  has_cedh_combos : Bool := false
  cedh_combo_count : Nat := 0
  tutor_score : ℚ := 0

/-- Commander signal (+4 for tier 1, +2 for tier 2). -/
def commanderBlock (i : CedhInputs) : Int × List (String × Int) :=
  if i.cedh_commander_tier = 1 then (4, [("cedh_commander_tier1", 4)])
  else if i.cedh_commander_tier = 2 then (2, [("cedh_commander_tier2", 2)])
  else (0, [])

/-- Fast mana signals. -/
def fastManaBlock (i : CedhInputs) : Int × List (String × Int) :=
  if i.fast_mana_count ≥ fast_mana_cedh_threshold then
    ((i.fast_mana_count : Int), [("fast_mana", (i.fast_mana_count : Int))])
  else if i.fast_mana_count ≥ 3 then
    ((i.fast_mana_count : Int) - 2, [("fast_mana", (i.fast_mana_count : Int) - 2)])
  else (0, [])

/-- Free interaction signals. -/
def freeInteractionBlock (i : CedhInputs) : Int × List (String × Int) :=
  if i.free_interaction_count ≥ free_interaction_cedh_threshold then
    ((i.free_interaction_count : Int),
     [("free_interaction", (i.free_interaction_count : Int))])
  else (0, [])

/-- Low average CMC signals. -/
def curveBlock (i : CedhInputs) : Int × List (String × Int) :=
  if i.avg_cmc < avg_cmc_cedh then (2, [("low_avg_cmc", 2)])
  else if i.avg_cmc < avg_cmc_optimized then (1, [("optimized_curve", 1)])
  else (0, [])

/-- Low land count signal. -/
def landBlock (i : CedhInputs) : Int × List (String × Int) :=
  if i.land_count ≤ lands_cedh_max then (1, [("low_land_count", 1)])
  else (0, [])

/-- cEDH combo signals, capped at +4. -/
def comboBlock (i : CedhInputs) : Int × List (String × Int) :=
  if i.has_cedh_combos then
    (min ((i.cedh_combo_count : Int) * 2) 4,
     [("cedh_combos", min ((i.cedh_combo_count : Int) * 2) 4)])
  else (0, [])

/-- High tutor density signal. -/
def tutorBlock (i : CedhInputs) : Int × List (String × Int) :=
  if i.tutor_score ≥ 15 then (2, [("heavy_tutors", 2)])
  else if i.tutor_score ≥ 10 then (1, [("moderate_tutors", 1)])
  else (0, [])

/-- Competitive stax density. -/
def staxBlock (i : CedhInputs) : Int × List (String × Int) :=
  if i.stax_count ≥ 5 then (2, [("stax_density", 2)])
  else if i.stax_count ≥ 3 then (1, [("stax_density", 1)])
  else (0, [])

/-- `(total_signals, breakdown)` in source order. -/
def calculate_cedh_signals (i : CedhInputs) : Int × List (String × Int) :=
  ((commanderBlock i).1 + (fastManaBlock i).1 + (freeInteractionBlock i).1
     + (curveBlock i).1 + (landBlock i).1 + (comboBlock i).1 + (tutorBlock i).1
     + (staxBlock i).1,
   (commanderBlock i).2 ++ (fastManaBlock i).2 ++ (freeInteractionBlock i).2
     ++ (curveBlock i).2 ++ (landBlock i).2 ++ (comboBlock i).2
     ++ (tutorBlock i).2 ++ (staxBlock i).2)

/-! ### `ThemeDetector.get_bracket1_likelihood` (theme_detector.py)

Returns the likelihood only; the source's second tuple component is the
`"; "`-joined reason text, which no caller feeds back into a score. -/

def get_bracket1_likelihood (synergy_score restriction_score : ℚ)
    (game_changers_count fast_mana_count tutor_count : Nat)
    (has_mass_land_denial : Bool) : ℚ :=
  -- Hard disqualifier: Mass Land Denial has NO exceptions
  if has_mass_land_denial then 0
  else
    let likelihood : ℚ := 0
    let likelihood :=
      if restriction_score ≥ 50 then likelihood + 60
      else if restriction_score ≥ 0 then likelihood + 40
      else likelihood
    let likelihood :=
      if restriction_score ≥ 0 ∧ synergy_score < 40 then likelihood + 10
      else likelihood
    let likelihood :=
      if restriction_score ≥ 15 ∧ synergy_score < 40 then likelihood + 20
      else likelihood
    let likelihood :=
      if game_changers_count > 0 ∧ restriction_score < 25 then
        likelihood - min 30 ((game_changers_count : ℚ) * 10)
      else likelihood
    let likelihood := if fast_mana_count = 0 then likelihood + 5 else likelihood
    let likelihood := if tutor_count = 0 then likelihood + 5 else likelihood
    max 0 (min 100 likelihood)

/-! ### `_calculate_bracket_enhanced` (deck_analyzer.py)

The decision procedure over the detector outputs.  Each assignment to
`bracket` in the source is one step function; `bracket_steps` lists them in
source order, `calculate_bracket_enhanced` folds them over the starting
value 2, and `bracket_trace` records the running value before and after
every step.  Reason strings are append-only display text and are omitted;
no reason affects `bracket`. -/

structure BracketInputs where
  game_changers_count : Nat := 0
  has_mass_ld : Bool := false
  extra_turn_count : Nat := 0
  tutor_score : ℚ := 0
  fast_mana_count : Nat := 0
  staple_count : Nat := 0
  cedh_signals : Int := 0
  combo_count : Nat := 0
  combo_bracket_impact : Nat := 0
  has_cedh_combos : Bool := false
  archetypes : List String := []
  synergy_score : ℚ := 0
  bracket1_likelihood : ℚ := 0

/-- Step 1: the Bracket 1 (Theme/Exhibition) check.  The `elif` branch for
likelihood 50–69 only appends advisory reasons. -/
def stepBracket1 (i : BracketInputs) (b : ℤ) : ℤ :=
  if i.has_mass_ld = false ∧ i.bracket1_likelihood ≥ 70 then 1 else b

/-- Step 2: the cEDH override (`bracket = 5`, a plain assignment). -/
def stepCedh (i : BracketInputs) (b : ℤ) : ℤ :=
  if i.cedh_signals ≥ cedh_signal_threshold then 5 else b

/-- Step 3a: cEDH-level verified combos. -/
def stepCedhCombos (i : BracketInputs) (b : ℤ) : ℤ :=
  if i.has_cedh_combos then max b 4 else b

/-- Step 3b: verified combo count/impact (`elif` chain; one and zero
combos only append reasons). -/
def stepComboImpact (i : BracketInputs) (b : ℤ) : ℤ :=
  if i.combo_bracket_impact ≥ 4 ∧ i.combo_count > 0 then max b 4
  else if i.combo_count ≥ 2 then max b 3
  else b

/-- Step 4: Game Changers. -/
def stepGameChangers (i : BracketInputs) (b : ℤ) : ℤ :=
  if i.game_changers_count > 3 then max b 4
  else if i.game_changers_count > 0 then max b 3
  else b

/-- Step 5: mass land denial. -/
def stepMassLd (i : BracketInputs) (b : ℤ) : ℤ :=
  if i.has_mass_ld then max b 4 else b

/-- Step 6: extra turns. -/
def stepExtraTurns (i : BracketInputs) (b : ℤ) : ℤ :=
  if i.extra_turn_count ≥ 3 then max b 4
  else if i.extra_turn_count ≥ 1 then max b 3
  else b

/-- Step 7: weighted tutor score. -/
def stepTutors (i : BracketInputs) (b : ℤ) : ℤ :=
  if i.tutor_score ≥ tutor_bracket4_threshold then max b 4
  else if i.tutor_score ≥ tutor_bracket3_threshold then max b 3
  else b

/-- Step 8: fast mana. -/
def stepFastMana (i : BracketInputs) (b : ℤ) : ℤ :=
  if i.fast_mana_count ≥ fast_mana_bracket4_threshold then max b 4
  else if i.fast_mana_count ≥ 2 then max b 3
  else b

/-- Step 9: high-power staples. -/
def stepStaples (i : BracketInputs) (b : ℤ) : ℤ :=
  if i.staple_count ≥ staples_bracket4_threshold then max b 4
  else if i.staple_count ≥ staples_bracket3_threshold then max b 3
  else b

/-- Step 10: keyword-detected combo archetype. -/
def stepComboArchetype (i : BracketInputs) (b : ℤ) : ℤ :=
  if "combo" ∈ i.archetypes ∧ b < 3 then max b 3 else b

/-- Every assignment to `bracket` in `_calculate_bracket_enhanced`,
in source order. -/
def bracket_steps : List (BracketInputs → ℤ → ℤ) :=
  [stepBracket1, stepCedh, stepCedhCombos, stepComboImpact, stepGameChangers,
   stepMassLd, stepExtraTurns, stepTutors, stepFastMana, stepStaples,
   stepComboArchetype]

/-- The returned bracket: the steps folded over the starting value 2
(`bracket = 2  # Start at Core`). -/
def calculate_bracket_enhanced (i : BracketInputs) : ℤ :=
  bracket_steps.foldl (fun b step => step i b) 2

/-- The running bracket value: start value followed by the value after
each successive step. -/
def bracket_trace (i : BracketInputs) : List ℤ :=
  bracket_steps.scanl (fun b step => step i b) 2

/-! ### `_calculate_mana_curve` (deck_analyzer.py) -/

/-- Python `int()` on a float/rational: truncation toward zero. -/
def pyInt (q : ℚ) : ℤ := if q < 0 then -(⌊-q⌋) else ⌊q⌋

/-- `round(q, 2)` — round to two decimal places.  (Python rounds exact
half-way floats to even; the two agree everywhere the analyzer's data can
land except exact `.005` ties, which no claim touches.) -/
def round2 (q : ℚ) : ℚ := (round (q * 100) : ℤ) / 100

/-- `curve[display_cmc] = curve.get(display_cmc, 0) + quantity` on an
insertion-ordered dictionary. -/
def curveAdd (curve : List (ℤ × Nat)) (k : ℤ) (q : Nat) : List (ℤ × Nat) :=
  if (curve.find? fun p => p.1 == k).isSome then
    curve.map fun p => if p.1 == k then (p.1, p.2 + q) else p
  else curve ++ [(k, q)]

structure CurveState where
  curve : List (ℤ × Nat) := []
  total_cmc : ℤ := 0
  nonland_count : Nat := 0

/-- One iteration of the `for card in cards` loop: lands are skipped,
mana values of 7 or more are grouped under the display key 7, and the
quantity-weighted totals are accumulated. -/
def curveStep (s : CurveState) (card : Card) : CurveState :=
  if strContains (pyLower card.type_line) "land" then s
  else
    let cmc := pyInt card.cmc
    let quantity := card.quantity.getD 1
    let display_cmc := min cmc 7
    { curve := curveAdd s.curve display_cmc quantity,
      total_cmc := s.total_cmc + cmc * quantity,
      nonland_count := s.nonland_count + quantity }

/-- `(curve, round(average, 2))`; the average falls back to 0 when no
non-land card was seen, instead of dividing by zero. -/
def calculate_mana_curve (cards : List Card) : List (ℤ × Nat) × ℚ :=
  let s := cards.foldl curveStep {}
  let average : ℚ :=
    if s.nonland_count > 0 then (s.total_cmc : ℚ) / s.nonland_count else 0
  (s.curve, round2 average)

/-! ### `ThemeDetector` (theme_detector.py): configuration -/

def artist_concentration_threshold : ℚ := 2/5
def set_concentration_threshold : ℚ := 3/5
def block_concentration_threshold : ℚ := 7/10
def rarity_concentration_threshold : ℚ := 4/5
def cmc_concentration_threshold : ℚ := 1
def alphabet_coverage_threshold : ℚ := 1
def frame_concentration_threshold : ℚ := 17/20

def PRECON_SETS : List String :=
  ["plc", "pca", "c13", "c14", "c15", "c16", "c17", "c18", "c19", "c20", "c21",
   "khc", "afc", "mic", "voc", "nec", "ncc", "brc", "orc", "onc", "moc", "woc",
   "lcc", "pip", "dsc", "fdc", "mh3c", "acr"]

def BLOCKS : List (String × List String) :=
  [("ravnica", ["rav", "gpt", "dis", "rtr", "gtc", "dgm", "grn", "rna", "war"]),
   ("innistrad", ["isd", "dka", "avr", "soi", "emn", "mid", "vow"]),
   ("zendikar", ["zen", "wwk", "roe", "bfz", "ogw", "znr"]),
   ("mirrodin", ["mrd", "dst", "5dn", "som", "mbs", "nph", "one", "mom"]),
   ("kamigawa", ["chk", "bok", "sok", "neo"]),
   ("theros", ["ths", "bng", "jou", "thb"]),
   ("dominaria", ["dom", "dmu", "bro"]),
   ("ixalan", ["xln", "rix", "lci"]),
   ("eldraine", ["eld", "woe"]),
   ("tarkir", ["ktk", "frf", "dtk"]),
   ("amonkhet", ["akh", "hou"]),
   ("kaladesh", ["kld", "aer"]),
   ("lorwyn", ["lrw", "mor", "shm", "eve"]),
   ("alara", ["ala", "con", "arb"]),
   ("time_spiral", ["tsp", "plc", "fut"]),
   ("ice_age", ["ice", "all", "csp"])]

/-- `dict[k] = v` on an insertion-ordered dictionary (overwrite or append). -/
def assocSet (m : List (String × String)) (k v : String) : List (String × String) :=
  if (m.find? fun p => p.1 == k).isSome then
    m.map fun p => if p.1 == k then (k, v) else p
  else m ++ [(k, v)]

/-- `self.set_to_block`: built in `__init__` by iterating the blocks and
assigning `set_to_block[set_code] = block_name` (later writes win). -/
def set_to_block : List (String × String) :=
  BLOCKS.foldl (fun m bs => bs.2.foldl (fun m sc => assocSet m sc bs.1) m) []

def lookupBlock (set_code : String) : Option String :=
  (set_to_block.find? fun p => p.1 == set_code).map Prod.snd

/-! ### The eight restriction checks of `detect_themes`

Each returns its dominant value, count, and share (`pct`, or `coverage`
for the alphabet check); `none` when the check does not fire. -/

def check_artist_concentration (cards : List Card) : Option (String × Nat × ℚ) :=
  let artists := (cards.map (·.artist)).filter (fun a => !(a == ""))
  match mostCommon artists with
  | none => none
  | some (top, cnt) =>
      let pct : ℚ := (cnt : ℚ) / artists.length
      if pct ≥ artist_concentration_threshold then some (top, cnt, pct) else none

def check_set_concentration (cards : List Card) : Option (String × Nat × ℚ) :=
  let sets := (cards.map fun c => pyLower c.set).filter
    (fun s => !(s == "") && !(PRECON_SETS.contains s))
  match mostCommon sets with
  | none => none
  | some (top, cnt) =>
      let pct : ℚ := (cnt : ℚ) / sets.length
      if pct ≥ set_concentration_threshold then some (top, cnt, pct) else none

def check_block_concentration (cards : List Card) : Option (String × Nat × ℚ) :=
  let blocks := cards.filterMap fun c => lookupBlock (pyLower c.set)
  if (blocks.length : ℚ) < (cards.length : ℚ) * (1/2) then none
  else
    match mostCommon blocks with
    | none => none
    | some (top, cnt) =>
        let pct : ℚ := (cnt : ℚ) / blocks.length
        if pct ≥ block_concentration_threshold then some (top, cnt, pct) else none

def check_rarity_concentration (cards : List Card) : Option (String × Nat × ℚ) :=
  let rarities := (cards.map fun c => pyLower c.rarity).filter (fun r => !(r == ""))
  match mostCommon rarities with
  | none => none
  | some (top, cnt) =>
      let pct : ℚ := (cnt : ℚ) / rarities.length
      if pct ≥ rarity_concentration_threshold ∧ (top = "common" ∨ top = "uncommon")
      then some (top, cnt, pct) else none

def check_alphabet_pattern (cards : List Card) : Option (ℚ × Nat) :=
  let letters := cards.filterMap fun c =>
    match c.name.toList with
    | [] => none
    | ch :: _ => let u := pyUpperChar ch; if u.isAlpha then some u else none
  let distinct := dedupFirst letters
  let coverage : ℚ := (distinct.length : ℚ) / 26
  if coverage ≥ alphabet_coverage_threshold then
    let counts := distinct.map fun ch => letters.count ch
    let avg : ℚ := (counts.sum : ℚ) / counts.length
    let max_count := counts.foldl max 0
    if (max_count : ℚ) ≤ avg * 3 then some (coverage, distinct.length) else none
  else none

def check_cmc_concentration (cards : List Card) : Option (ℤ × Nat × ℚ) :=
  let cmcs := cards.filterMap fun c =>
    if strContains c.type_line "Land" then none else some (pyInt c.cmc)
  match mostCommon cmcs with
  | none => none
  | some (top, cnt) =>
      let pct : ℚ := (cnt : ℚ) / cmcs.length
      if pct ≥ cmc_concentration_threshold then some (top, cnt, pct) else none

def check_frame_concentration (cards : List Card) : Option (String × Nat × ℚ) :=
  let frames := (cards.map (·.frame)).filter (fun f => !(f == ""))
  match mostCommon frames with
  | none => none
  | some (top, cnt) =>
      let pct : ℚ := (cnt : ℚ) / frames.length
      if pct ≥ frame_concentration_threshold ∧ (top = "1993" ∨ top = "1997")
      then some (top, cnt, pct) else none

def name_ignore_words : List String :=
  ["the", "of", "and", "to", "a", "in", "for", "is", "on", "that",
   "it", "with", "as", "was", "at", "be", "this", "from", "or", "an"]

def check_name_word_pattern (cards : List Card) : Option (String × Nat × ℚ) :=
  let words := (cards.map fun c =>
    ((lowercaseRuns (pyLower c.name)).filter fun w => w.length ≥ 3).filter
      (fun w => !(name_ignore_words.contains w))).flatten
  match mostCommon words with
  | none => none
  | some (top, cnt) =>
      if cnt ≥ 10 then some (top, cnt, (cnt : ℚ) / cards.length) else none

/-- `detect_themes`, projected to `(detected_themes, restriction_score)`.
Each firing check contributes its theme tag and
`base_points * (0.5 + concentration * 0.5)`; the sum is capped at 100.
Cards whose type line contains `"Basic"` are excluded, and fewer than 20
remaining cards short-circuits to the empty result.  The
`restriction_description` text and `theme_details` map carry the same
detections in display form and are not modelled. -/
def detect_themes (cards : List Card) : List String × ℚ :=
  let non_basics := cards.filter fun c => !(strContains c.type_line "Basic")
  if non_basics.length < 20 then ([], 0)
  else
    let detections : List (String × ℚ × ℚ) :=
      (match check_artist_concentration non_basics with
       | some (_, _, pct) => [("single_artist", pct, 35)] | none => []) ++
      (match check_set_concentration non_basics with
       | some (_, _, pct) => [("set_restricted", pct, 30)] | none => []) ++
      (match check_block_concentration non_basics with
       | some (_, _, pct) => [("block_restricted", pct, 25)] | none => []) ++
      (match check_rarity_concentration non_basics with
       | some (_, _, pct) => [("rarity_restricted", pct, 20)] | none => []) ++
      (match check_alphabet_pattern non_basics with
       | some (coverage, _) => [("alphabet_deck", coverage, 15)] | none => []) ++
      (match check_cmc_concentration non_basics with
       | some (_, _, pct) => [("cmc_restricted", pct, 50)] | none => []) ++
      (match check_frame_concentration non_basics with
       | some (_, _, pct) => [("frame_restricted", pct, 25)] | none => []) ++
      (match check_name_word_pattern non_basics with
       | some (_, _, pct) => [("name_theme", pct, 40)] | none => [])
    let total_score := (detections.map fun d => d.2.2 * (1/2 + d.2.1 * (1/2))).sum
    (detections.map (·.1), min 100 total_score)

/-! ### `SynergyAnalyzer` (synergy.py) -/

/-- `TRIBAL_TYPES`, a membership set in the source (its iteration order
never matters: hits are collected into a per-card set). -/
def TRIBAL_TYPES : List String :=
  ["Elf", "Elves", "Goblin", "Goblins", "Zombie", "Zombies",
   "Human", "Humans", "Vampire", "Vampires", "Angel", "Angels",
   "Dragon", "Dragons", "Demon", "Demons", "Merfolk", "Wizard", "Wizards",
   "Soldier", "Soldiers", "Knight", "Knights", "Cleric", "Clerics",
   "Warrior", "Warriors", "Shaman", "Shamans", "Druid", "Druids",
   "Beast", "Beasts", "Bird", "Birds", "Cat", "Cats", "Dog", "Dogs",
   "Dinosaur", "Dinosaurs", "Elemental", "Elementals", "Spirit", "Spirits",
   "Sliver", "Slivers", "Ally", "Allies", "Pirate", "Pirates",
   "Rat", "Rats", "Snake", "Snakes", "Spider", "Spiders",
   "Treefolk", "Fungus", "Saproling", "Saprolings",
   "Faerie", "Faeries", "Giant", "Giants", "Kithkin",
   "Artificer", "Artificers", "Rogue", "Rogues", "Assassin", "Assassins",
   "Wolf", "Wolves", "Werewolf", "Werewolves",
   "Sphinx", "Sphinxes", "Horror", "Horrors",
   "Squirrel", "Squirrels", "Frog", "Frogs",
   "Tyranid", "Tyranids", "Astartes", "Phyrexian", "Phyrexians",
   "Ninja", "Ninjas", "Samurai", "Monk", "Monks",
   "Skeleton", "Skeletons", "Insect", "Insects"]

/-- `SYNERGY_THEMES`: (name, keyword set, weight) in source order. -/
def SYNERGY_THEMES : List (String × List String × ℚ) :=
  [("counters", ["counter", "counters", "proliferate", "modified", "adapt"], 1),
   ("tokens", ["token", "tokens", "populate", "convoke"], 9/10),
   ("sacrifice", ["sacrifice", "sacrificed", "dies", "death", "dying"], 6/5),
   ("graveyard", ["graveyard", "graveyards", "reanimate", "unearth",
                  "flashback", "escape", "dredge", "delve"], 1),
   ("etb", ["enters the battlefield", "enters", "blink", "flicker"], 1),
   ("artifacts", ["artifact", "artifacts", "equipment", "equip", "vehicle",
                  "crew", "treasure", "clue", "food"], 9/10),
   ("enchantments", ["enchantment", "enchantments", "aura", "constellation",
                     "enchanted"], 1),
   ("spells", ["instant", "sorcery", "prowess", "magecraft", "storm"], 1),
   ("combat", ["attacks", "attacking", "combat damage", "blocked", "fight",
               "fights"], 4/5),
   ("lifegain", ["gain life", "gains life", "lifelink"], 1),
   ("mill", ["mill", "milled", "mills"], 13/10),
   ("discard", ["discard", "discards", "discarded", "madness", "hellbent"], 1),
   ("draw", ["draw a card", "draw cards", "draws a card", "wheel"], 3/5)]

/-- `_normalize_type`: lowercase, strip, then the suffix rules in source
order (so `"zombies"` hits the `ies → y` rule first). -/
def normalize_type (t : String) : String :=
  let t := pyStrip (pyLower t)
  if pyEndsWith t "ies" then pyDropRight t 3 ++ "y"
  else if pyEndsWith t "ves" then pyDropRight t 3 ++ "f"
  else if t = "zombies" then "zombie"
  else if pyEndsWith t "es" ∧ t.length > 4 then pyDropRight t 2
  else if pyEndsWith t "s" ∧ t.length > 3 then pyDropRight t 1
  else t

/-- Step 1 of `_get_tribal_density`, per card: the set (first-hit order) of
normalized tribal types whose name occurs in the card's lowercased oracle
text; empty oracle text contributes nothing. -/
def tribal_card_types (c : Card) : List String :=
  if c.oracle_text = "" then []
  else
    let oracle_lower := pyLower c.oracle_text
    dedupFirst ((TRIBAL_TYPES.filter fun tt =>
      strContains oracle_lower (pyLower tt)).map normalize_type)

/-- Step 2 of `_get_tribal_density`, per creature card: the subtype words
after the first separator found among `"—"`, `"–"`, `" - "`
(`type_line.split(sep)[1].strip().split()`). -/
def subtypes_of (type_line : String) : List String :=
  if strContains type_line "—" then
    pySplitWhitespace (pyStrip ((pySplitOn type_line "—").getD 1 ""))
  else if strContains type_line "–" then
    pySplitWhitespace (pyStrip ((pySplitOn type_line "–").getD 1 ""))
  else if strContains type_line " - " then
    pySplitWhitespace (pyStrip ((pySplitOn type_line " - ").getD 1 ""))
  else []

/-- `_get_tribal_density`: oracle mentions are worth 3 points per
mentioning card, type-line subtype share contributes only with oracle
intent (≥5 mentions full weight, ≥2 half, otherwise nothing); fewer than
5 creature cards short-circuits to 0; the best-scoring type is capped at
80.  The per-type maximum is order-independent, so the source's iteration
over a Python set is modelled by folding `max` over the first-occurrence
listing of the same types. -/
def get_tribal_density (cards : List Card) : ℚ :=
  let creature_cards := cards.filter fun c => strContains c.type_line "Creature"
  let creature_count := creature_cards.length
  let subtype_occurrences :=
    (creature_cards.map fun c => (subtypes_of c.type_line).map normalize_type).flatten
  if creature_count < 5 then 0
  else
    let all_types := dedupFirst ((cards.map tribal_card_types).flatten ++ subtype_occurrences)
    let best_score := all_types.foldl (fun best t =>
      let oracle_count := (cards.filter fun c => t ∈ tribal_card_types c).length
      let type_line_count := subtype_occurrences.count t
      let oracle_score : ℚ := (oracle_count : ℚ) * 3
      let type_line_score : ℚ :=
        if oracle_count ≥ 5 then ((type_line_count : ℚ) / creature_count) * 50
        else if oracle_count ≥ 2 then ((type_line_count : ℚ) / creature_count) * 25
        else 0
      max best (oracle_score + type_line_score)) 0
    min 80 best_score

/-- Whether a card's lowercased oracle text hits any keyword of a theme
(the inner `for kw … break` loop). -/
def theme_hit (keywords : List String) (c : Card) : Bool :=
  keywords.any fun kw => strContains (pyLower c.oracle_text) kw

/-- The distinct names collected into `theme_hits[theme]`; a card whose
name is missing falls back to `card_{i}` (absence modelled by `""`). -/
def theme_hit_names (cards : List Card) (keywords : List String) : List String :=
  dedupFirst ((cards.enum.filter fun p => theme_hit keywords p.2).map
    fun p => if p.2.name = "" then "card_" ++ toString p.1 else p.2.name)

/-- `_get_theme_concentration`: per-theme score
`(hit count / deck size) * 100 * weight` over themes with at least one
hit; the top score, plus 20% of the runner-up when the runner-up exceeds
15, capped at 80.  All entries are nonnegative, so the descending stable
sort's first two entries are the maximum and the maximum after removing
one copy of it. -/
def get_theme_concentration (cards : List Card) : ℚ :=
  let deck_size := cards.length
  let scores := SYNERGY_THEMES.filterMap fun th =>
    let hits := theme_hit_names cards th.2.1
    if hits.length ≠ 0 then some ((hits.length : ℚ) / deck_size * 100 * th.2.2)
    else none
  match scores with
  | [] => 0
  | _ =>
    let primary := scores.foldl max 0
    let second := (scores.erase primary).foldl max 0
    let primary := if scores.length > 1 ∧ second > 15 then primary + second * (1/5)
                   else primary
    min 80 primary

/-- `calculate_synergy_score`: 0 below the 20-card floor over non-basic
cards, else the larger sub-score plus a damped 15% of the smaller when the
smaller exceeds 20, rounded and capped at 100. -/
def calculate_synergy_score (deck_cards : List Card) : ℚ :=
  let non_basics := deck_cards.filter fun c => !(strContains c.type_line "Basic")
  if non_basics.length < 20 then 0
  else
    let tribal_score := get_tribal_density non_basics
    let theme_score := get_theme_concentration non_basics
    let primary_score := max tribal_score theme_score
    let secondary_score := min tribal_score theme_score
    let final_score :=
      if secondary_score > 20 then primary_score + secondary_score * (3/20)
      else primary_score
    min 100 (round2 final_score)

/-! ## Theorems -/

/-- Folding `acc + f c` over a list accumulates the sum of the mapped
values. -/
lemma foldl_add_map_sum (f : Card → Nat) (l : List Card) (a : Nat) :
    l.foldl (fun acc c => acc + f c) a = a + (l.map f).sum := by
  induction l generalizing a with
  | nil => simp
  | cons c l ih => simp [List.foldl, ih, Nat.add_assoc]

/-- C9: the quantity-aware counter returns the sum of each card's quantity
field (1 when absent), not the number of distinct entries; a single entry
with quantity 30 counts as 30, while it is one entry. -/
theorem count_cards_sums_quantities :
    (∀ cards : List Card,
      count_cards_with_quantity cards = (cards.map fun c => c.quantity.getD 1).sum)
    ∧ count_cards_with_quantity [{ name := "Relentless Rats", quantity := some 30 }] = 30
    ∧ [({ name := "Relentless Rats", quantity := some 30 } : Card)].length = 1 := by
  refine ⟨fun cards => ?_, rfl, rfl⟩
  simpa using foldl_add_map_sum (fun c => c.quantity.getD 1) cards 0

/-- C3: a deck with any mass-land-denial card gets Bracket-1 likelihood
exactly 0, whatever the synergy score, restriction score, Game Changer
count, fast mana count and tutor count are. -/
theorem bracket1_likelihood_mld_veto (s r : ℚ) (gc fm t : Nat) :
    get_bracket1_likelihood s r gc fm t true = 0 := by
  simp [get_bracket1_likelihood]

/-- C8: the weighted tutor score is the sum over the four tiers of
(tier count × tier weight), and the configured weights strictly decrease
premium > efficient > standard > slow. -/
theorem tutor_score_weighted_sum :
    (∀ tb : TutorBreakdown,
      calculate_tutor_score tb =
        ([((tb.premium.length : ℚ), tutor_premium_weight),
          ((tb.efficient.length : ℚ), tutor_efficient_weight),
          ((tb.standard.length : ℚ), tutor_standard_weight),
          ((tb.slow.length : ℚ), tutor_slow_weight)].map fun p => p.1 * p.2).sum)
    ∧ tutor_premium_weight > tutor_efficient_weight
    ∧ tutor_efficient_weight > tutor_standard_weight
    ∧ tutor_standard_weight > tutor_slow_weight := by
  refine ⟨fun tb => ?_, ?_, ?_, ?_⟩
  · simp [calculate_tutor_score]; ring
  · norm_num [tutor_premium_weight, tutor_efficient_weight]
  · norm_num [tutor_efficient_weight, tutor_standard_weight]
  · norm_num [tutor_standard_weight, tutor_slow_weight]

/-- C6: the categorizer takes the first match of the ordered priority list
creature, instant, sorcery, artifact, enchantment, land, planeswalker,
else `"other"`; in particular an "Artifact Creature — Construct" lands in
the creatures bucket, never in artifacts. -/
theorem categorizer_first_match :
    (∀ card : Card, categorize_card card = categorize_card_by_priority card)
    ∧ categorize_card { type_line := "Artifact Creature — Construct" } = "creatures"
    ∧ categorize_card { type_line := "Artifact Creature — Construct" } ≠ "artifacts" := by
  refine ⟨fun card => ?_, by with_unfolding_all decide, by with_unfolding_all decide⟩
  simp only [categorize_card, categorize_card_by_priority, categoryPriority, List.find?]
  repeat' split <;> simp_all

/-- C7: tutor tier assignment consults the curated lists first, in the
order premium, efficient, standard, slow (case-insensitive name match),
and only a tutor found in none of them is classified by its own mana
value: ≤1 premium, ≤2 efficient, ≤3 standard, >3 slow. -/
theorem tutor_tier_curated_then_cmc (name : String) (cmc : ℚ) :
    (inCuratedList TUTORS_PREMIUM name = true →
      classify_tutor_tier name cmc = "premium")
    ∧ (inCuratedList TUTORS_PREMIUM name = false →
       inCuratedList TUTORS_EFFICIENT name = true →
      classify_tutor_tier name cmc = "efficient")
    ∧ (inCuratedList TUTORS_PREMIUM name = false →
       inCuratedList TUTORS_EFFICIENT name = false →
       inCuratedList TUTORS_STANDARD name = true →
      classify_tutor_tier name cmc = "standard")
    ∧ (inCuratedList TUTORS_PREMIUM name = false →
       inCuratedList TUTORS_EFFICIENT name = false →
       inCuratedList TUTORS_STANDARD name = false →
       inCuratedList TUTORS_SLOW name = true →
      classify_tutor_tier name cmc = "slow")
    ∧ (inCuratedList TUTORS_PREMIUM name = false →
       inCuratedList TUTORS_EFFICIENT name = false →
       inCuratedList TUTORS_STANDARD name = false →
       inCuratedList TUTORS_SLOW name = false →
      classify_tutor_tier name cmc =
        if cmc ≤ 1 then "premium" else if cmc ≤ 2 then "efficient"
        else if cmc ≤ 3 then "standard" else "slow") := by
  refine ⟨?_, ?_, ?_, ?_, ?_⟩ <;> intros <;> simp_all [classify_tutor_tier]

/-- Witness for C7: a curated premium tutor stays premium at any mana
value, and an uncurated name at mana value 4 classifies as slow. -/
theorem tutor_tier_curated_then_cmc_witness :
    classify_tutor_tier "Demonic Tutor" 5 = "premium"
    ∧ classify_tutor_tier "A Totally New Card" 4 = "slow" := by
  constructor
  · exact (tutor_tier_curated_then_cmc "Demonic Tutor" 5).1
      (by with_unfolding_all decide)
  · have h := (tutor_tier_curated_then_cmc "A Totally New Card" 4).2.2.2.2
      (by with_unfolding_all decide) (by with_unfolding_all decide)
      (by with_unfolding_all decide) (by with_unfolding_all decide)
    rw [h]; norm_num

lemma commanderBlock_spec (i : CedhInputs) :
    (commanderBlock i).1 = ((commanderBlock i).2.map Prod.snd).sum
    ∧ ∀ p ∈ (commanderBlock i).2, 0 ≤ p.2 := by
  unfold commanderBlock; repeat' split
  all_goals simp_all

lemma fastManaBlock_spec (i : CedhInputs) :
    (fastManaBlock i).1 = ((fastManaBlock i).2.map Prod.snd).sum
    ∧ ∀ p ∈ (fastManaBlock i).2, 0 ≤ p.2 := by
  unfold fastManaBlock; repeat' split
  all_goals simp_all
  all_goals omega

lemma freeInteractionBlock_spec (i : CedhInputs) :
    (freeInteractionBlock i).1 = ((freeInteractionBlock i).2.map Prod.snd).sum
    ∧ ∀ p ∈ (freeInteractionBlock i).2, 0 ≤ p.2 := by
  unfold freeInteractionBlock; repeat' split
  all_goals simp_all

lemma curveBlock_spec (i : CedhInputs) :
    (curveBlock i).1 = ((curveBlock i).2.map Prod.snd).sum
    ∧ ∀ p ∈ (curveBlock i).2, 0 ≤ p.2 := by
  unfold curveBlock; repeat' split
  all_goals simp_all

lemma landBlock_spec (i : CedhInputs) :
    (landBlock i).1 = ((landBlock i).2.map Prod.snd).sum
    ∧ ∀ p ∈ (landBlock i).2, 0 ≤ p.2 := by
  unfold landBlock; repeat' split
  all_goals simp_all

lemma comboBlock_spec (i : CedhInputs) :
    (comboBlock i).1 = ((comboBlock i).2.map Prod.snd).sum
    ∧ ∀ p ∈ (comboBlock i).2, 0 ≤ p.2 := by
  unfold comboBlock; repeat' split
  all_goals simp_all

lemma tutorBlock_spec (i : CedhInputs) :
    (tutorBlock i).1 = ((tutorBlock i).2.map Prod.snd).sum
    ∧ ∀ p ∈ (tutorBlock i).2, 0 ≤ p.2 := by
  unfold tutorBlock; repeat' split
  all_goals simp_all

lemma staxBlock_spec (i : CedhInputs) :
    (staxBlock i).1 = ((staxBlock i).2.map Prod.snd).sum
    ∧ ∀ p ∈ (staxBlock i).2, 0 ≤ p.2 := by
  unfold staxBlock; repeat' split
  all_goals simp_all

/-- C4: the cEDH signal total equals the sum of the values in the
breakdown, and every breakdown contribution is nonnegative — no signal
ever subtracts from the total. -/
theorem cedh_signals_total_is_breakdown_sum (i : CedhInputs) :
    (calculate_cedh_signals i).1 = ((calculate_cedh_signals i).2.map Prod.snd).sum
    ∧ ∀ p ∈ (calculate_cedh_signals i).2, 0 ≤ p.2 := by
  obtain ⟨h1, h1n⟩ := commanderBlock_spec i
  obtain ⟨h2, h2n⟩ := fastManaBlock_spec i
  obtain ⟨h3, h3n⟩ := freeInteractionBlock_spec i
  obtain ⟨h4, h4n⟩ := curveBlock_spec i
  obtain ⟨h5, h5n⟩ := landBlock_spec i
  obtain ⟨h6, h6n⟩ := comboBlock_spec i
  obtain ⟨h7, h7n⟩ := tutorBlock_spec i
  obtain ⟨h8, h8n⟩ := staxBlock_spec i
  constructor
  · simp only [calculate_cedh_signals, List.map_append, List.sum_append,
      h1, h2, h3, h4, h5, h6, h7, h8]
  · intro p hp
    simp only [calculate_cedh_signals, List.mem_append] at hp
    rcases hp with ((((((hp | hp) | hp) | hp) | hp) | hp) | hp) | hp
    exacts [h1n p hp, h2n p hp, h3n p hp, h4n p hp, h5n p hp, h6n p hp,
      h7n p hp, h8n p hp]

/-- Witness for C4: a tier-1 commander deck with an otherwise default
profile; its breakdown holds the +4 commander entry, and the total is the
breakdown sum. -/
theorem cedh_signals_total_is_breakdown_sum_witness :
    (calculate_cedh_signals { cedh_commander_tier := 1 }).1 =
      (((calculate_cedh_signals { cedh_commander_tier := 1 }).2).map Prod.snd).sum
    ∧ (0 : ℤ) ≤ (("cedh_commander_tier1", (4 : ℤ)) : String × ℤ).2 := by
  refine ⟨(cedh_signals_total_is_breakdown_sum { cedh_commander_tier := 1 }).1, ?_⟩
  exact (cedh_signals_total_is_breakdown_sum { cedh_commander_tier := 1 }).2
    ("cedh_commander_tier1", 4) (by with_unfolding_all decide)

/-- C1: the Bracket-1 override is not final.  On a deck with no mass land
denial, Bracket-1 likelihood 70 and a single Game Changer (every other
signal absent), the override fires (`stepBracket1` turns the starting 2
into 1) and yet the Game-Changers step later raises the result to 3 —
the procedure does not skip subsequent raising as documented. -/
theorem bracket1_theme_deck_still_raised :
    stepBracket1 { game_changers_count := 1, bracket1_likelihood := 70 } 2 = 1
    ∧ calculate_bracket_enhanced
        { game_changers_count := 1, bracket1_likelihood := 70 } = 3 := by
  constructor
  · with_unfolding_all decide
  · with_unfolding_all decide

/-- Counterexample to C2 as stated: with Bracket-1 likelihood 70 and no
other signal, the running bracket value goes 2, then 1 — the Bracket-1
override step assigns a value lower than the one before it, so the trace
is not non-decreasing across all steps. -/
theorem bracket_trace_dips_at_theme_override :
    bracket_trace { bracket1_likelihood := 70 } = [2, 1, 1, 1, 1, 1, 1, 1, 1, 1, 1, 1]
    ∧ ¬ List.Chain' (· ≤ ·) ([2, 1, 1, 1, 1, 1, 1, 1, 1, 1, 1, 1] : List ℤ) := by
  refine ⟨by with_unfolding_all decide, ?_⟩
  norm_num [List.chain'_cons]

lemma chain_le_scanl {α : Type} (g : ℤ → α → ℤ) (l : List α) :
    ∀ b : ℤ, b ≤ 5 → (∀ a ∈ l, ∀ x : ℤ, x ≤ 5 → x ≤ g x a ∧ g x a ≤ 5) →
      List.Chain' (· ≤ ·) (l.scanl g b) := by
  induction l with
  | nil => intro b _ _; simp
  | cons a l ih =>
      intro b hb h
      have ha := h a (List.mem_cons_self a l) b hb
      have hchain := ih (g b a) ha.2 fun a' ha' x hx => h a' (List.mem_cons_of_mem a ha') x hx
      rw [List.scanl_cons]
      cases l with
      | nil => simpa using ha.1
      | cons a' l' =>
          rw [List.scanl_cons] at hchain ⊢
          exact List.chain'_cons.mpr ⟨ha.1, hchain⟩

lemma stepCedh_infl (i : BracketInputs) (b : ℤ) (hb : b ≤ 5) :
    b ≤ stepCedh i b ∧ stepCedh i b ≤ 5 := by
  unfold stepCedh; split <;> omega

lemma stepCedhCombos_infl (i : BracketInputs) (b : ℤ) (hb : b ≤ 5) :
    b ≤ stepCedhCombos i b ∧ stepCedhCombos i b ≤ 5 := by
  unfold stepCedhCombos; split <;> omega

lemma stepComboImpact_infl (i : BracketInputs) (b : ℤ) (hb : b ≤ 5) :
    b ≤ stepComboImpact i b ∧ stepComboImpact i b ≤ 5 := by
  unfold stepComboImpact; repeat' split
  all_goals omega

lemma stepGameChangers_infl (i : BracketInputs) (b : ℤ) (hb : b ≤ 5) :
    b ≤ stepGameChangers i b ∧ stepGameChangers i b ≤ 5 := by
  unfold stepGameChangers; repeat' split
  all_goals omega

lemma stepMassLd_infl (i : BracketInputs) (b : ℤ) (hb : b ≤ 5) :
    b ≤ stepMassLd i b ∧ stepMassLd i b ≤ 5 := by
  unfold stepMassLd; split <;> omega

lemma stepExtraTurns_infl (i : BracketInputs) (b : ℤ) (hb : b ≤ 5) :
    b ≤ stepExtraTurns i b ∧ stepExtraTurns i b ≤ 5 := by
  unfold stepExtraTurns; repeat' split
  all_goals omega

lemma stepTutors_infl (i : BracketInputs) (b : ℤ) (hb : b ≤ 5) :
    b ≤ stepTutors i b ∧ stepTutors i b ≤ 5 := by
  unfold stepTutors; repeat' split
  all_goals omega

lemma stepFastMana_infl (i : BracketInputs) (b : ℤ) (hb : b ≤ 5) :
    b ≤ stepFastMana i b ∧ stepFastMana i b ≤ 5 := by
  unfold stepFastMana; repeat' split
  all_goals omega

lemma stepStaples_infl (i : BracketInputs) (b : ℤ) (hb : b ≤ 5) :
    b ≤ stepStaples i b ∧ stepStaples i b ≤ 5 := by
  unfold stepStaples; repeat' split
  all_goals omega

lemma stepComboArchetype_infl (i : BracketInputs) (b : ℤ) (hb : b ≤ 5) :
    b ≤ stepComboArchetype i b ∧ stepComboArchetype i b ≤ 5 := by
  unfold stepComboArchetype; split <;> omega

/-- C2 (amended): for every fixed set of detector outputs, the running
bracket value is non-decreasing across every evaluation step after the
Bracket-1 override; only that first override step can lower the value
(from the baseline 2 to 1). -/
theorem bracket_monotone_after_theme_override (i : BracketInputs) :
    List.Chain' (· ≤ ·) ((bracket_trace i).tail) := by
  have h2 : (bracket_trace i).tail =
      List.scanl (fun b step => step i b) (stepBracket1 i 2)
        [stepCedh, stepCedhCombos, stepComboImpact, stepGameChangers, stepMassLd,
         stepExtraTurns, stepTutors, stepFastMana, stepStaples,
         stepComboArchetype] := by
    simp [bracket_trace, bracket_steps, List.scanl_cons]
  rw [h2]
  apply chain_le_scanl
  · unfold stepBracket1; split <;> norm_num
  · intro a ha x hx
    simp only [List.mem_cons, List.not_mem_nil, or_false] at ha
    rcases ha with h | h | h | h | h | h | h | h | h | h
    · exact h ▸ stepCedh_infl i x hx
    · exact h ▸ stepCedhCombos_infl i x hx
    · exact h ▸ stepComboImpact_infl i x hx
    · exact h ▸ stepGameChangers_infl i x hx
    · exact h ▸ stepMassLd_infl i x hx
    · exact h ▸ stepExtraTurns_infl i x hx
    · exact h ▸ stepTutors_infl i x hx
    · exact h ▸ stepFastMana_infl i x hx
    · exact h ▸ stepStaples_infl i x hx
    · exact h ▸ stepComboArchetype_infl i x hx

lemma curveAdd_mem_fst (curve : List (ℤ × Nat)) (k : ℤ) (q : Nat) :
    ∀ k' ∈ (curveAdd curve k q).map Prod.fst, k' ∈ curve.map Prod.fst ∨ k' = k := by
  intro k' hk'
  unfold curveAdd at hk'
  split at hk'
  · left
    rcases List.mem_map.mp hk' with ⟨pp, hpp, rfl⟩
    rcases List.mem_map.mp hpp with ⟨p, hp, rfl⟩
    refine List.mem_map.mpr ⟨p, hp, ?_⟩
    by_cases h : p.1 == k <;> simp [h]
  · rw [List.map_append] at hk'
    rcases List.mem_append.mp hk' with h | h
    · exact Or.inl h
    · right; simpa using h

lemma curveStep_keys_le (s : CurveState) (c : Card)
    (hs : ∀ k ∈ s.curve.map Prod.fst, k ≤ 7) :
    ∀ k ∈ (curveStep s c).curve.map Prod.fst, k ≤ 7 := by
  intro k hk
  unfold curveStep at hk
  split at hk
  · exact hs k hk
  · simp only at hk
    rcases curveAdd_mem_fst _ _ _ k hk with h | h
    · exact hs k h
    · rw [h]; exact min_le_right _ _

lemma foldl_curve_keys_le (cards : List Card) :
    ∀ s : CurveState, (∀ k ∈ s.curve.map Prod.fst, k ≤ 7) →
      ∀ k ∈ (cards.foldl curveStep s).curve.map Prod.fst, k ≤ 7 := by
  induction cards with
  | nil => intro s hs; simpa using hs
  | cons c cards ih =>
      intro s hs
      rw [List.foldl_cons]
      exact ih _ (curveStep_keys_le s c hs)

lemma foldl_curve_all_lands (cards : List Card)
    (h : ∀ c ∈ cards, strContains (pyLower c.type_line) "land" = true) :
    ∀ s : CurveState, cards.foldl curveStep s = s := by
  induction cards with
  | nil => intro s; simp
  | cons c cards ih =>
      intro s
      rw [List.foldl_cons]
      have hstep : curveStep s c = s := by
        unfold curveStep; rw [if_pos (h c (List.mem_cons_self c cards))]
      rw [hstep]
      exact ih (fun c' hc' => h c' (List.mem_cons_of_mem c hc')) s

/-- C10: the mana curve computation is total and well-defined — cards
whose (lowercased) type line contains "land" leave the state untouched,
every histogram key is at most 7 (a card of mana value ≥ 7 is recorded
under the display key 7), and a card list with no non-land entry yields
average mana value 0 instead of a division by zero. -/
theorem mana_curve_total_and_safe :
    (∀ cards : List Card, ∀ k ∈ (calculate_mana_curve cards).1.map Prod.fst, k ≤ 7)
    ∧ (∀ (s : CurveState) (c : Card),
        strContains (pyLower c.type_line) "land" = true → curveStep s c = s)
    ∧ (∀ cards : List Card,
        (∀ c ∈ cards, strContains (pyLower c.type_line) "land" = true) →
        (calculate_mana_curve cards).2 = 0)
    ∧ (∀ (s : CurveState) (c : Card),
        strContains (pyLower c.type_line) "land" = false → 7 ≤ pyInt c.cmc →
        (curveStep s c).curve = curveAdd s.curve 7 (c.quantity.getD 1)) := by
  refine ⟨?_, ?_, ?_, ?_⟩
  · intro cards k hk
    exact foldl_curve_keys_le cards {} (by simp) k hk
  · intro s c h
    unfold curveStep; rw [if_pos h]
  · intro cards h
    unfold calculate_mana_curve
    rw [foldl_curve_all_lands cards h {}]
    norm_num [round2]
  · intro s c hland hcmc
    unfold curveStep
    rw [if_neg (by simp [hland])]
    simp only [min_eq_right hcmc]

/-- Witness for C10: a basic Island leaves the state untouched and a deck
of only Islands reports average 0; a 9-drop sorcery is recorded under
key 7, and that key obeys the ≤ 7 bound. -/
theorem mana_curve_total_and_safe_witness :
    curveStep {} { type_line := "Basic Land — Island" } = {}
    ∧ (calculate_mana_curve [{ type_line := "Basic Land — Island" }]).2 = 0
    ∧ (curveStep {} { type_line := "Sorcery", cmc := 9 }).curve =
        curveAdd ({} : CurveState).curve 7 1
    ∧ (7 : ℤ) ≤ 7 := by
  refine ⟨?_, ?_, ?_, ?_⟩
  · exact mana_curve_total_and_safe.2.1 {} _ (by with_unfolding_all decide)
  · exact mana_curve_total_and_safe.2.2.1 _ (by with_unfolding_all decide)
  · exact mana_curve_total_and_safe.2.2.2 {} _ (by with_unfolding_all decide)
      (by with_unfolding_all decide)
  · exact mana_curve_total_and_safe.1 [{ type_line := "Sorcery", cmc := 9 }] 7
      (by with_unfolding_all decide)

/-- Counterexample to C5 as stated: five copies of an Elf creature whose
oracle text mentions "Elf" form a card list with only 5 creatures — fewer
than the claimed 10-creature floor — yet the tribal density sub-score is
65 (5 mentioning cards × 3 points plus full type-line credit 50), not 0.
The floor in the code is 5 creatures, not 10. -/
theorem tribal_density_fires_below_ten_creatures :
    ((List.replicate 5
        ({ name := "Elf", type_line := "Creature — Elf", oracle_text := "Elf" } : Card)).filter
      fun c => strContains c.type_line "Creature").length = 5
    ∧ get_tribal_density (List.replicate 5
        { name := "Elf", type_line := "Creature — Elf", oracle_text := "Elf" }) = 65 := by
  constructor
  · with_unfolding_all decide
  · with_unfolding_all decide

/-- C5 (amended): insufficient-sample inputs give neutral results at the
floors the code uses — below 20 non-basic cards the theme detector
reports no themes and restriction score 0 and the synergy score is 0;
below 5 creature cards (not 10) the tribal density sub-score is 0. -/
theorem insufficient_sample_neutral :
    (∀ cards : List Card,
        (cards.filter fun c => !(strContains c.type_line "Basic")).length < 20 →
        detect_themes cards = ([], 0) ∧ calculate_synergy_score cards = 0)
    ∧ (∀ cards : List Card,
        (cards.filter fun c => strContains c.type_line "Creature").length < 5 →
        get_tribal_density cards = 0) := by
  constructor
  · intro cards h
    constructor
    · unfold detect_themes
      rw [if_pos h]
    · unfold calculate_synergy_score
      rw [if_pos h]
  · intro cards h
    unfold get_tribal_density
    rw [if_pos h]

/-- Witness for C5: the empty card list has no non-basics and no
creatures, and all three detectors report the neutral value. -/
theorem insufficient_sample_neutral_witness :
    detect_themes ([] : List Card) = ([], 0)
    ∧ calculate_synergy_score ([] : List Card) = 0
    ∧ get_tribal_density ([] : List Card) = 0 := by
  refine ⟨(insufficient_sample_neutral.1 [] (by decide)).1,
    (insufficient_sample_neutral.1 [] (by decide)).2,
    insufficient_sample_neutral.2 [] (by decide)⟩

end MTG
